import Mathlib

/-!
Verification development for the jupyter-mcp server.

This file gives a shallow embedding, in Lean 4, of the core logic of the
jupyter-mcp repository (src/notebook_manager.py, src/tools.py, src/utils.py,
src/models.py) and proves properties of that embedding.

Modelling conventions:
* Python strings are `List Char` (`PyStr`); Python dicts are association
  lists with unique keys, looked up with `List.find?`.
* Network effects are made explicit: each client call is a function of the
  transport outcome it observes (`HttpOutcome`), and kernel-channel traffic
  is a finite trace of messages (`List KMsg`).
* A Python exception that a function raises (rather than catches) appears as
  an explicit error constructor in the function's result type.
-/

namespace JupyterMCP

/-- Python strings are modelled as lists of characters. -/
abbrev PyStr := List Char

/-- Decimal digit characters of a natural number, as produced by Python `str`. -/
def natChars (n : Nat) : List Char :=
  if _h : n < 10 then [Nat.digitChar n]
  else natChars (n / 10) ++ [Nat.digitChar (n % 10)]
decreasing_by exact Nat.div_lt_self (by omega) (by omega)

/-- Characters of Python `str(i)` for an integer `i`. -/
def intChars (i : Int) : List Char :=
  if i < 0 then '-' :: natChars i.natAbs else natChars i.toNat

/-- A kernel-channel message as read by `KernelManager._collect_outputs`
(src/notebook_manager.py:192).  `msg_type` is `msg["header"]["msg_type"]`;
`parent_msg_id` is `msg["parent_header"].get("msg_id")` (absent key gives
`none`); the remaining fields are the `msg["content"]` entries the loop reads
for the four output-producing message types. -/
structure KMsg where
  msg_type : PyStr
  parent_msg_id : Option PyStr
  name : PyStr
  text : PyStr
  data : List (PyStr × PyStr)
  metadata : List (PyStr × PyStr)
  execution_count : Int
  ename : PyStr
  evalue : PyStr
  traceback : List PyStr
deriving DecidableEq

/-- An output dictionary as built by `_collect_outputs`: the discriminated
union over the four `output_type` values the loop appends. -/
inductive Output where
  | stream (name text : PyStr)
  | display_data (data metadata : List (PyStr × PyStr))
  | execute_result (execution_count : Int) (data metadata : List (PyStr × PyStr))
  | error (ename evalue : PyStr) (traceback : List PyStr)
deriving DecidableEq

/-- The `elif` chain of `_collect_outputs` (src/notebook_manager.py:204-237)
restricted to the four branches that append an output: which output entry, if
any, a matching message contributes. -/
def classify_output (m : KMsg) : Option Output :=
  if m.msg_type = "stream".toList then some (.stream m.name m.text)
  else if m.msg_type = "display_data".toList then some (.display_data m.data m.metadata)
  else if m.msg_type = "execute_result".toList then
    some (.execute_result m.execution_count m.data m.metadata)
  else if m.msg_type = "error".toList then some (.error m.ename m.evalue m.traceback)
  else none

/-- `KernelManager._collect_outputs` (src/notebook_manager.py:192-241) over a
finite trace of received messages.  A message whose parent `msg_id` differs
from the request's correlation identifier is skipped (`continue`); a matching
message of one of the four output types contributes one entry; the matching
`execute_reply` breaks the loop.  If the trace is exhausted without a matching
`execute_reply`, the Python loop is still blocked in `ws.recv()`, which we
model as `none`. -/
def collect_outputs (msg_id : PyStr) : List KMsg → Option (List Output)
  | [] => none
  | m :: rest =>
    if m.parent_msg_id ≠ some msg_id then collect_outputs msg_id rest
    else
      match classify_output m with
      | some o => (collect_outputs msg_id rest).map (fun os => o :: os)
      | none =>
        if m.msg_type = "execute_reply".toList then some []
        else collect_outputs msg_id rest

/-- Helper: a trace containing no message that both matches the correlation
identifier and has type `execute_reply` never terminates the collection loop
(the Python loop would still be blocked in `ws.recv()`). -/
theorem collect_outputs_eq_none_of_no_reply (msg_id : PyStr) (msgs : List KMsg)
    (hmsgs : ∀ m ∈ msgs,
      ¬ (m.parent_msg_id = some msg_id ∧ m.msg_type = "execute_reply".toList)) :
    collect_outputs msg_id msgs = none := by
  induction msgs with
  | nil => rfl
  | cons m rest ih =>
    have hm := hmsgs m (List.mem_cons_self m rest)
    have ih' := ih (fun x hx => hmsgs x (List.mem_cons_of_mem m hx))
    by_cases hp : m.parent_msg_id = some msg_id
    · have hne : ¬ (m.parent_msg_id ≠ some msg_id) := fun hc => hc hp
      have hnr : ¬ m.msg_type = "execute_reply".toList := fun h => hm ⟨hp, h⟩
      cases hcl : classify_output m with
      | some o =>
        unfold collect_outputs
        rw [if_neg hne, hcl, ih']
        rfl
      | none =>
        unfold collect_outputs
        rw [if_neg hne, hcl, if_neg hnr, ih']
    · unfold collect_outputs
      rw [if_pos hp, ih']

/-- C1: over any kernel-channel trace, the output-collection loop skips every
message whose parent msg_id differs from the correlation identifier; each
matching stream/display_data/execute_result/error message appends exactly one
corresponding entry, in arrival order; the loop terminates exactly on the
first matching `execute_reply`, which contributes no entry; and a trace with
no matching `execute_reply` never terminates the loop. -/
theorem collect_outputs_correct (msg_id : PyStr) (pre post : List KMsg) (reply : KMsg)
    (hr₁ : reply.parent_msg_id = some msg_id)
    (hr₂ : reply.msg_type = "execute_reply".toList)
    (hpre : ∀ m ∈ pre,
      ¬ (m.parent_msg_id = some msg_id ∧ m.msg_type = "execute_reply".toList)) :
    collect_outputs msg_id (pre ++ reply :: post) =
      some (pre.filterMap (fun m =>
        if m.parent_msg_id = some msg_id then classify_output m else none)) ∧
    (∀ m : KMsg, (classify_output m).isSome ↔
      (m.msg_type = "stream".toList ∨ m.msg_type = "display_data".toList ∨
       m.msg_type = "execute_result".toList ∨ m.msg_type = "error".toList)) ∧
    (∀ m : KMsg, m.msg_type = "stream".toList →
      classify_output m = some (.stream m.name m.text)) ∧
    (∀ m : KMsg, m.msg_type = "display_data".toList →
      classify_output m = some (.display_data m.data m.metadata)) ∧
    (∀ m : KMsg, m.msg_type = "execute_result".toList →
      classify_output m = some (.execute_result m.execution_count m.data m.metadata)) ∧
    (∀ m : KMsg, m.msg_type = "error".toList →
      classify_output m = some (.error m.ename m.evalue m.traceback)) ∧
    (∀ msgs : List KMsg,
      (∀ m ∈ msgs,
        ¬ (m.parent_msg_id = some msg_id ∧ m.msg_type = "execute_reply".toList)) →
      collect_outputs msg_id msgs = none) := by
  refine ⟨?_, ?_, ?_, ?_, ?_, ?_, ?_⟩
  · induction pre with
    | nil =>
      rw [List.nil_append, List.filterMap_nil]
      have hne : ¬ (reply.parent_msg_id ≠ some msg_id) := fun hc => hc hr₁
      have hcl : classify_output reply = none := by
        unfold classify_output
        rw [hr₂, if_neg (by decide), if_neg (by decide), if_neg (by decide),
          if_neg (by decide)]
      show collect_outputs msg_id (reply :: post) = some []
      unfold collect_outputs
      rw [if_neg hne, hcl, if_pos hr₂]
    | cons m pre ih =>
      have hm := hpre m (List.mem_cons_self m pre)
      have ih' := ih (fun x hx => hpre x (List.mem_cons_of_mem m hx))
      rw [List.cons_append, List.filterMap_cons]
      by_cases hp : m.parent_msg_id = some msg_id
      · have hne : ¬ (m.parent_msg_id ≠ some msg_id) := fun hc => hc hp
        rw [if_pos hp]
        cases hcl : classify_output m with
        | some o =>
          show collect_outputs msg_id (m :: (pre ++ reply :: post)) = _
          unfold collect_outputs
          rw [if_neg hne, hcl, ih']
          rfl
        | none =>
          have hnr : ¬ m.msg_type = "execute_reply".toList := fun h => hm ⟨hp, h⟩
          show collect_outputs msg_id (m :: (pre ++ reply :: post)) = _
          unfold collect_outputs
          rw [if_neg hne, hcl, if_neg hnr, ih']
      · rw [if_neg hp]
        show collect_outputs msg_id (m :: (pre ++ reply :: post)) = _
        unfold collect_outputs
        rw [if_pos hp, ih']
  · intro m
    unfold classify_output
    by_cases h1 : m.msg_type = "stream".toList
    · rw [if_pos h1]; exact ⟨fun _ => Or.inl h1, fun _ => rfl⟩
    · rw [if_neg h1]
      by_cases h2 : m.msg_type = "display_data".toList
      · rw [if_pos h2]; exact ⟨fun _ => Or.inr (Or.inl h2), fun _ => rfl⟩
      · rw [if_neg h2]
        by_cases h3 : m.msg_type = "execute_result".toList
        · rw [if_pos h3]; exact ⟨fun _ => Or.inr (Or.inr (Or.inl h3)), fun _ => rfl⟩
        · rw [if_neg h3]
          by_cases h4 : m.msg_type = "error".toList
          · rw [if_pos h4]; exact ⟨fun _ => Or.inr (Or.inr (Or.inr h4)), fun _ => rfl⟩
          · rw [if_neg h4]
            refine ⟨fun h => absurd h (by decide), fun h => ?_⟩
            rcases h with h | h | h | h
            · exact absurd h h1
            · exact absurd h h2
            · exact absurd h h3
            · exact absurd h h4
  · intro m h
    unfold classify_output
    rw [if_pos h]
  · intro m h
    have e1 : ¬ m.msg_type = "stream".toList := by rw [h]; decide
    unfold classify_output
    rw [if_neg e1, if_pos h]
  · intro m h
    have e1 : ¬ m.msg_type = "stream".toList := by rw [h]; decide
    have e2 : ¬ m.msg_type = "display_data".toList := by rw [h]; decide
    unfold classify_output
    rw [if_neg e1, if_neg e2, if_pos h]
  · intro m h
    have e1 : ¬ m.msg_type = "stream".toList := by rw [h]; decide
    have e2 : ¬ m.msg_type = "display_data".toList := by rw [h]; decide
    have e3 : ¬ m.msg_type = "execute_result".toList := by rw [h]; decide
    unfold classify_output
    rw [if_neg e1, if_neg e2, if_neg e3, if_pos h]
  · exact fun msgs hmsgs => collect_outputs_eq_none_of_no_reply msg_id msgs hmsgs

/-- Concrete messages used to witness the collection-loop theorem: a matching
stream message, an unrelated message with no parent msg_id, and the matching
execute_reply. -/
def wMsgStream : KMsg :=
  ⟨"stream".toList, some ("m".toList), "stdout".toList, "hi".toList,
    [], [], 0, [], [], []⟩

def wMsgOther : KMsg :=
  ⟨"status".toList, none, [], [], [], [], 0, [], [], []⟩

def wMsgReply : KMsg :=
  ⟨"execute_reply".toList, some ("m".toList), [], [], [], [], 0, [], [], []⟩

/-- Witness for the collection-loop theorem on a concrete three-message
trace. -/
theorem collect_outputs_correct_witness :
    (wMsgReply.parent_msg_id = some ("m".toList)) ∧
    (wMsgReply.msg_type = "execute_reply".toList) ∧
    (∀ m ∈ [wMsgStream, wMsgOther],
      ¬ (m.parent_msg_id = some ("m".toList) ∧
         m.msg_type = "execute_reply".toList)) ∧
    collect_outputs ("m".toList) ([wMsgStream, wMsgOther] ++ wMsgReply :: []) =
      some [Output.stream ("stdout".toList) ("hi".toList)] := by
  refine ⟨by decide, by decide, by decide, ?_⟩
  exact ((collect_outputs_correct ("m".toList) [wMsgStream, wMsgOther] []
    wMsgReply (by decide) (by decide) (by decide)).1).trans (by decide)

/-! ### Kernel execution round-trip (`KernelManager.execute_code`) -/

/-- Outcome of the WebSocket channel that `execute_code` opens
(src/notebook_manager.py:155-169): either the channel raises a
`websockets.exceptions.WebSocketException` (the only exception caught), or it
delivers a finite trace of messages. -/
inductive WsOutcome where
  | wsError (e : PyStr)
  | trace (msgs : List KMsg)

/-- Result of `execute_code`: the list of collected outputs, a raised
`KernelError`, or — when the trace holds no matching `execute_reply` — the
call is still blocked in the receive loop (`hang`): the source applies no
timeout anywhere (the `timeout` field of `AppConfig`, src/models.py:17, is
never read). -/
inductive ExecResult where
  | ok (outputs : List Output)
  | kernelError (msg : PyStr)
  | hang
deriving DecidableEq

/-- Whether an execution result is a raised `KernelError`. -/
def ExecResult.isKernelError : ExecResult → Bool
  | .kernelError _ => true
  | _ => false

/-- `KernelManager.execute_code` (src/notebook_manager.py:155-169): a
`WebSocketException` is converted to a `KernelError`; otherwise the result is
whatever `_collect_outputs` does on the delivered trace.  No timeout is
applied. -/
def execute_code (o : WsOutcome) (msg_id : PyStr) : ExecResult :=
  match o with
  | .wsError e =>
    .kernelError ("WebSocket error during kernel execution: ".toList ++ e)
  | .trace msgs =>
    match collect_outputs msg_id msgs with
    | some outs => .ok outs
    | none => .hang

/-- C2 (code-bug exhibit): `execute_code` consults no timeout.  On a channel
that never delivers a matching `execute_reply`, the call stays blocked in the
receive loop (`hang`) and never produces the `KernelError` the spec requires;
the only `KernelError` it can produce comes from a WebSocket exception. -/
theorem execute_code_hangs_without_reply (msgs : List KMsg) (msg_id : PyStr)
    (h : ∀ m ∈ msgs,
      ¬ (m.parent_msg_id = some msg_id ∧ m.msg_type = "execute_reply".toList)) :
    execute_code (.trace msgs) msg_id = .hang ∧
    (execute_code (.trace msgs) msg_id).isKernelError = false ∧
    (∀ e : PyStr, execute_code (.wsError e) msg_id =
      .kernelError ("WebSocket error during kernel execution: ".toList ++ e)) := by
  have hnone := collect_outputs_eq_none_of_no_reply msg_id msgs h
  refine ⟨?_, ?_, fun e => rfl⟩
  · simp only [execute_code, hnone]
  · simp only [execute_code, hnone, ExecResult.isKernelError]

/-- Witness: on the empty trace (kernel sends nothing), `execute_code` hangs
rather than raising a `KernelError`. -/
theorem execute_code_hangs_without_reply_witness :
    (∀ m ∈ ([] : List KMsg),
      ¬ (m.parent_msg_id = some ("m".toList) ∧
         m.msg_type = "execute_reply".toList)) ∧
    execute_code (.trace []) ("m".toList) = .hang ∧
    (execute_code (.trace []) ("m".toList)).isKernelError = false :=
  ⟨by decide,
   (execute_code_hangs_without_reply [] ("m".toList) (by decide)).1,
   (execute_code_hangs_without_reply [] ("m".toList) (by decide)).2.1⟩

/-! ### Output normalization layer (src/utils.py) -/

/-- Python dict lookup `d.get(k)` over an association list with unique keys. -/
def dict_get (d : List (PyStr × PyStr)) (k : PyStr) : Option PyStr :=
  (d.find? (fun kv => kv.1 == k)).map (fun kv => kv.2)

/-- The display-ready value `extract_output_from_cell` returns: either an
image handle or a plain string (Python returns heterogeneously). -/
inductive Extracted where
  | image (b64 : PyStr)
  | str (s : PyStr)
deriving DecidableEq

/-- `png_to_image_obj` (src/utils.py:38-63): base64-decodes the payload,
writes it under a fresh random file name and returns a FastMCP `Image`
handle.  The file-system effect is abstracted away; the handle keeps the
payload it was built from. -/
def png_to_image_obj (b64 : PyStr) : Extracted := .image b64

/-- `_extract_display_data` (src/utils.py:82-97): fixed MIME precedence
image/png > text/html > text/plain, else the empty string. -/
def extract_display_data (data : List (PyStr × PyStr)) : Extracted :=
  match dict_get data ("image/png".toList) with
  | some v => png_to_image_obj v
  | none =>
    match dict_get data ("text/html".toList) with
    | some v => .str v
    | none =>
      match dict_get data ("text/plain".toList) with
      | some v => .str v
      | none => .str []

/-- `_extract_error_output` (src/utils.py:100-113) on the error variant's
fields (the duck-typed `_get_attribute_or_key` accesses collapse to plain
field reads on the typed variant): `f"{ename}: {evalue}\n" +
"\n".join(traceback)`. -/
def extract_error_output (ename evalue : PyStr) (traceback : List PyStr) : PyStr :=
  ename ++ ": ".toList ++ evalue ++ "\n".toList ++
    List.intercalate ("\n".toList) traceback

/-- `extract_output_from_cell` (src/utils.py:116-137) on the four structured
output variants. -/
def extract_output_from_cell (o : Output) : Extracted :=
  match o with
  | .display_data data _ => extract_display_data data
  | .execute_result _ data _ => extract_display_data data
  | .stream _ text => .str text
  | .error e v tb => .str (extract_error_output e v tb)

/-- C5: display-value extraction follows the fixed MIME precedence
image/png > text/html > text/plain; if none is present the result is the
empty string.  The presence of a higher-precedence type decides the result
regardless of what else the mime-map contains. -/
theorem extract_display_data_precedence (d : List (PyStr × PyStr)) :
    (∀ v, dict_get d ("image/png".toList) = some v →
      extract_display_data d = .image v) ∧
    (dict_get d ("image/png".toList) = none →
      ∀ v, dict_get d ("text/html".toList) = some v →
        extract_display_data d = .str v) ∧
    (dict_get d ("image/png".toList) = none →
      dict_get d ("text/html".toList) = none →
      ∀ v, dict_get d ("text/plain".toList) = some v →
        extract_display_data d = .str v) ∧
    (dict_get d ("image/png".toList) = none →
      dict_get d ("text/html".toList) = none →
      dict_get d ("text/plain".toList) = none →
      extract_display_data d = .str []) := by
  refine ⟨?_, ?_, ?_, ?_⟩
  · intro v hv
    simp only [extract_display_data, hv]
    rfl
  · intro h v hv
    simp only [extract_display_data, h, hv]
  · intro h1 h2 v hv
    simp only [extract_display_data, h1, h2, hv]
  · intro h1 h2 h3
    simp only [extract_display_data, h1, h2, h3]

/-- Concrete mime-map holding all three MIME types, used as a witness. -/
def wMime : List (PyStr × PyStr) :=
  [("image/png".toList, "PNGDATA".toList),
   ("text/html".toList, "<b>h</b>".toList),
   ("text/plain".toList, "h".toList)]

/-- Witness: on a mime-map holding image/png, text/html and text/plain, the
image wins. -/
theorem extract_display_data_precedence_witness :
    dict_get wMime ("image/png".toList) = some ("PNGDATA".toList) ∧
    extract_display_data wMime = .image ("PNGDATA".toList) :=
  ⟨by decide,
   (extract_display_data_precedence wMime).1 ("PNGDATA".toList) (by decide)⟩

/-- C9: extraction of an error output yields exactly
`ename ++ ": " ++ evalue ++ "\n" ++ traceback joined by newlines`; on the
spec's concrete example it yields the exact expected string. -/
theorem extract_error_output_format (e v : PyStr) (tb : List PyStr) :
    extract_output_from_cell (.error e v tb) =
      .str (e ++ ": ".toList ++ v ++ "\n".toList ++
        List.intercalate ("\n".toList) tb) ∧
    extract_output_from_cell
      (.error ("NameError".toList) ("name \x27x\x27 is not defined".toList)
        ["line1".toList, "line2".toList]) =
      .str ("NameError: name \x27x\x27 is not defined\nline1\nline2".toList) := by
  exact ⟨rfl, by decide⟩

/-- Witness for the error-formatting theorem at concrete fields. -/
theorem extract_error_output_format_witness :
    extract_output_from_cell
      (.error ("E".toList) ("msg".toList) ["t1".toList]) =
      .str ("E".toList ++ ": ".toList ++ "msg".toList ++ "\n".toList ++
        List.intercalate ("\n".toList) ["t1".toList]) :=
  (extract_error_output_format ("E".toList) ("msg".toList) ["t1".toList]).1

/-! ### Kernel sessions (`KernelManager.get_or_create_session`) -/

/-- One entry of the server's session listing as read by
`get_or_create_session` (src/notebook_manager.py:139-153): `id`,
`kernel.id`, and `session.get("notebook", {}).get("path")` (absent gives
`none`). -/
structure JSession where
  id : PyStr
  kernel_id : PyStr
  notebook_path : Option PyStr
deriving DecidableEq

/-- `KernelManager.get_or_create_session`: scan the listed sessions for one
whose stored notebook path equals the requested path and return its
identifiers; only when none matches, call `create_session` — modelled by the
`created` argument carrying the server's reply `(session id, kernel id)` —
and return its identifiers.  The boolean records whether `create_session`
was called. -/
def get_or_create_session (sessions : List JSession) (path : PyStr)
    (created : PyStr × PyStr) : (PyStr × PyStr) × Bool :=
  match sessions.find? (fun s => s.notebook_path == some path) with
  | some s => ((s.id, s.kernel_id), false)
  | none => (created, true)

/-- C3: a listed session whose stored notebook path matches is returned
without calling `create_session`; `create_session` is called exactly when no
listed session matches; and across two consecutive executions where the
session created by the first is listed for the second, only one creation
happens and the second call returns the same identifiers. -/
theorem get_or_create_session_reuse (sessions : List JSession) (path : PyStr)
    (created : PyStr × PyStr) :
    (∀ s, sessions.find? (fun s => s.notebook_path == some path) = some s →
      get_or_create_session sessions path created = ((s.id, s.kernel_id), false)) ∧
    ((∀ s ∈ sessions, s.notebook_path ≠ some path) →
      get_or_create_session sessions path created = (created, true)) ∧
    (∀ sessions₂ : List JSession, ∀ created₂ : PyStr × PyStr,
      (∀ s ∈ sessions, s.notebook_path ≠ some path) →
      sessions₂.find? (fun s => s.notebook_path == some path) =
        some ⟨created.1, created.2, some path⟩ →
      get_or_create_session sessions path created = (created, true) ∧
      get_or_create_session sessions₂ path created₂ =
        ((created.1, created.2), false)) := by
  have hnone : (∀ s ∈ sessions, s.notebook_path ≠ some path) →
      sessions.find? (fun s => s.notebook_path == some path) = none := by
    intro h
    rw [List.find?_eq_none]
    intro s hs
    simpa using h s hs
  refine ⟨?_, ?_, ?_⟩
  · intro s hs
    unfold get_or_create_session
    rw [hs]
  · intro h
    unfold get_or_create_session
    rw [hnone h]
  · intro sessions₂ created₂ h hfind
    refine ⟨?_, ?_⟩
    · unfold get_or_create_session
      rw [hnone h]
    · unfold get_or_create_session
      rw [hfind]

/-- Witness: first execution sees no matching session and creates one; the
second sees the created session listed and reuses its identifiers, so a
single creation serves both executions. -/
theorem get_or_create_session_reuse_witness :
    (∀ s ∈ ([] : List JSession), s.notebook_path ≠ some ("nb.ipynb".toList)) ∧
    get_or_create_session [] ("nb.ipynb".toList) ("s1".toList, "k1".toList) =
      (("s1".toList, "k1".toList), true) ∧
    get_or_create_session [⟨"s1".toList, "k1".toList, some ("nb.ipynb".toList)⟩]
      ("nb.ipynb".toList) ("s2".toList, "k2".toList) =
      (("s1".toList, "k1".toList), false) := by
  refine ⟨by decide, ?_, ?_⟩
  · exact ((get_or_create_session_reuse [] ("nb.ipynb".toList)
      ("s1".toList, "k1".toList)).2.2
      [⟨"s1".toList, "k1".toList, some ("nb.ipynb".toList)⟩]
      ("s2".toList, "k2".toList) (by decide) (by decide)).1
  · exact ((get_or_create_session_reuse [] ("nb.ipynb".toList)
      ("s1".toList, "k1".toList)).2.2
      [⟨"s1".toList, "k1".toList, some ("nb.ipynb".toList)⟩]
      ("s2".toList, "k2".toList) (by decide) (by decide)).2

/-! ### Tool surface: update_cell / delete_cell (src/tools.py) -/

/-- A notebook cell as manipulated by the tools: kind, source text and
outputs. -/
structure PCell where
  cell_type : PyStr
  source : PyStr
  outputs : List Output
deriving DecidableEq

/-- `ERROR_MESSAGES["index_out_of_range"].format(index=i)`
(src/tools.py:20). -/
def index_out_of_range_msg (i : Int) : PyStr :=
  "Error: Cell index ".toList ++ intChars i ++ " out of range".toList

/-- `SUCCESS_MESSAGES["cell_updated"].format(index=i)` (src/tools.py:13). -/
def cell_updated_msg (i : Int) : PyStr :=
  "Cell ".toList ++ intChars i ++ " updated successfully".toList

/-- `SUCCESS_MESSAGES["cell_deleted"].format(index=i)` (src/tools.py:14). -/
def cell_deleted_msg (i : Int) : PyStr :=
  "Cell ".toList ++ intChars i ++ " deleted successfully".toList

/-- `_validate_cell_index` (src/tools.py:42-53): rejects exactly the indices
`cell_index >= len(cells)`. -/
def validate_cell_index (cells : List PCell) (i : Int) : Option PyStr :=
  if i ≥ (cells.length : Int) then some (index_out_of_range_msg i) else none

/-- Python list-index resolution: a non-negative index addresses from the
front, a negative index `i` with `-len <= i` addresses position `len + i`;
anything else raises `IndexError`. -/
def py_list_index (len : Nat) (i : Int) : Option Nat :=
  if 0 ≤ i then
    if i < (len : Int) then some i.toNat else none
  else
    if -(len : Int) ≤ i then some ((len : Int) + i).toNat else none

/-- Replace the source of the cell at (resolved, non-negative) position `j`,
as `cells[i].source = new_content` does. -/
def set_source : List PCell → Nat → PyStr → List PCell
  | [], _, _ => []
  | c :: cs, 0, s => { c with source := s } :: cs
  | c :: cs, j + 1, s => c :: set_source cs j s

/-- `update_cell` (src/tools.py:214-236) after the initial refresh, acting
on the current cell list: validation failure is returned as a plain message
with the list untouched; otherwise the addressed cell's source is replaced.
`.error` is Python's `IndexError` (unreachable for indices the validator
admits that also resolve). -/
def update_cell (cells : List PCell) (i : Int) (new_content : PyStr) :
    Except PyStr (List PCell × PyStr) :=
  match validate_cell_index cells i with
  | some msg => .ok (cells, msg)
  | none =>
    match py_list_index cells.length i with
    | some j => .ok (set_source cells j new_content, cell_updated_msg i)
    | none => .error ("IndexError".toList)

/-- `delete_cell` (src/tools.py:239-260) after the initial refresh:
validation failure is returned as a plain message with the list untouched;
otherwise `del cells[i]` removes the addressed cell. -/
def delete_cell (cells : List PCell) (i : Int) :
    Except PyStr (List PCell × PyStr) :=
  match validate_cell_index cells i with
  | some msg => .ok (cells, msg)
  | none =>
    match py_list_index cells.length i with
    | some j => .ok (cells.eraseIdx j, cell_deleted_msg i)
    | none => .error ("IndexError".toList)

/-- C4: calling update or delete with index equal to the cell count returns
the designated out-of-range message and returns the document unchanged —
same cell count and, cell by cell, the same kind, source and outputs. -/
theorem update_delete_at_count_rejected (cells : List PCell) (s : PyStr) :
    update_cell cells (cells.length : Int) s =
      .ok (cells, index_out_of_range_msg (cells.length : Int)) ∧
    delete_cell cells (cells.length : Int) =
      .ok (cells, index_out_of_range_msg (cells.length : Int)) ∧
    (∀ r, update_cell cells (cells.length : Int) s = .ok r →
      r.1.length = cells.length ∧ ∀ j : Nat, r.1.get? j = cells.get? j) ∧
    (∀ r, delete_cell cells (cells.length : Int) = .ok r →
      r.1.length = cells.length ∧ ∀ j : Nat, r.1.get? j = cells.get? j) := by
  have hv : validate_cell_index cells (cells.length : Int) =
      some (index_out_of_range_msg (cells.length : Int)) := by
    unfold validate_cell_index
    rw [if_pos (le_refl _)]
  have hu : update_cell cells (cells.length : Int) s =
      .ok (cells, index_out_of_range_msg (cells.length : Int)) := by
    unfold update_cell
    rw [hv]
  have hd : delete_cell cells (cells.length : Int) =
      .ok (cells, index_out_of_range_msg (cells.length : Int)) := by
    unfold delete_cell
    rw [hv]
  refine ⟨hu, hd, ?_, ?_⟩
  · intro r hr
    rw [hu] at hr
    cases hr
    exact ⟨rfl, fun j => rfl⟩
  · intro r hr
    rw [hd] at hr
    cases hr
    exact ⟨rfl, fun j => rfl⟩

/-- Witness for the out-of-range theorem on a one-cell notebook. -/
theorem update_delete_at_count_rejected_witness :
    update_cell [⟨"code".toList, "x = 1".toList, []⟩] 1 ("y".toList) =
      .ok ([⟨"code".toList, "x = 1".toList, []⟩], index_out_of_range_msg 1) ∧
    delete_cell [⟨"code".toList, "x = 1".toList, []⟩] 1 =
      .ok ([⟨"code".toList, "x = 1".toList, []⟩], index_out_of_range_msg 1) :=
  ⟨(update_delete_at_count_rejected [⟨"code".toList, "x = 1".toList, []⟩]
      ("y".toList)).1,
   (update_delete_at_count_rejected [⟨"code".toList, "x = 1".toList, []⟩]
      ("y".toList)).2.1⟩

/-- Helper: `set_source` keeps the list length. -/
theorem set_source_length (l : List PCell) (j : Nat) (s : PyStr) :
    (set_source l j s).length = l.length := by
  induction l generalizing j with
  | nil => rfl
  | cons c cs ih =>
    cases j with
    | zero => rfl
    | succ j => simpa [set_source] using ih j

/-- Helper: `set_source` rewrites exactly the addressed position. -/
theorem set_source_get?_self (l : List PCell) (j : Nat) (s : PyStr) :
    (set_source l j s).get? j =
      (l.get? j).map (fun c => { c with source := s }) := by
  induction l generalizing j with
  | nil => rfl
  | cons c cs ih =>
    cases j with
    | zero => rfl
    | succ j => simpa [set_source] using ih j

/-- Helper: `set_source` leaves every other position unchanged. -/
theorem set_source_get?_of_ne (l : List PCell) (j k : Nat) (s : PyStr)
    (h : k ≠ j) : (set_source l j s).get? k = l.get? k := by
  induction l generalizing j k with
  | nil => rfl
  | cons c cs ih =>
    cases j with
    | zero =>
      cases k with
      | zero => exact absurd rfl h
      | succ k => rfl
    | succ j =>
      cases k with
      | zero => rfl
      | succ k => simpa [set_source] using ih j k (fun hc => h (by omega))

/-- C10: the bounds check rejects only `i >= n`, so a negative index
`-n <= i <= -1` passes it; update and delete then address the cell at
position `n + i` counting from the end, succeed, and return messages naming
the negative index rather than the out-of-range message. -/
theorem negative_index_update_delete (cells : List PCell) (i : Int) (s : PyStr)
    (h₁ : 1 ≤ cells.length) (h₂ : -(cells.length : Int) ≤ i) (h₃ : i ≤ -1) :
    update_cell cells i s =
      .ok (set_source cells ((cells.length : Int) + i).toNat s,
        cell_updated_msg i) ∧
    delete_cell cells i =
      .ok (cells.eraseIdx ((cells.length : Int) + i).toNat,
        cell_deleted_msg i) ∧
    cell_updated_msg i ≠ index_out_of_range_msg i ∧
    cell_deleted_msg i ≠ index_out_of_range_msg i ∧
    (set_source cells ((cells.length : Int) + i).toNat s).length =
      cells.length ∧
    (set_source cells ((cells.length : Int) + i).toNat s).get?
        ((cells.length : Int) + i).toNat =
      (cells.get? ((cells.length : Int) + i).toNat).map
        (fun c => { c with source := s }) ∧
    (∀ j : Nat, j ≠ ((cells.length : Int) + i).toNat →
      (set_source cells ((cells.length : Int) + i).toNat s).get? j =
        cells.get? j) ∧
    (cells.eraseIdx ((cells.length : Int) + i).toNat).length =
      cells.length - 1 := by
  have hvn : validate_cell_index cells i = none := by
    unfold validate_cell_index
    rw [if_neg (by omega)]
  have hpi : py_list_index cells.length i =
      some ((cells.length : Int) + i).toNat := by
    unfold py_list_index
    rw [if_neg (by omega), if_pos h₂]
  have hCne : ∀ a b : PyStr,
      ¬ ("Cell ".toList ++ a) = ("Error: Cell index ".toList ++ b) := by
    intro a b hc
    have h' := congrArg List.head? hc
    rw [show (("Cell ".toList ++ a)).head? = some 'C' from rfl,
      show (("Error: Cell index ".toList ++ b)).head? = some 'E' from rfl] at h'
    exact absurd h' (by decide)
  refine ⟨?_, ?_, ?_, ?_, set_source_length _ _ _, set_source_get?_self _ _ _,
    fun j hj => set_source_get?_of_ne _ _ _ _ hj, ?_⟩
  · unfold update_cell
    rw [hvn, hpi]
  · unfold delete_cell
    rw [hvn, hpi]
  · unfold cell_updated_msg index_out_of_range_msg
    rw [List.append_assoc, List.append_assoc]
    exact hCne _ _
  · unfold cell_deleted_msg index_out_of_range_msg
    rw [List.append_assoc, List.append_assoc]
    exact hCne _ _
  · have hlt : ((cells.length : Int) + i).toNat < cells.length := by omega
    rw [List.length_eraseIdx]
    simp [hlt]

/-- Witness: on a two-cell notebook, index `-1` updates and deletes the last
cell and reports success naming `-1`. -/
theorem negative_index_update_delete_witness :
    (1 ≤ ([⟨"code".toList, "a".toList, []⟩,
           ⟨"code".toList, "b".toList, []⟩] : List PCell).length) ∧
    update_cell [⟨"code".toList, "a".toList, []⟩,
        ⟨"code".toList, "b".toList, []⟩] (-1) ("c".toList) =
      .ok ([⟨"code".toList, "a".toList, []⟩, ⟨"code".toList, "c".toList, []⟩],
        cell_updated_msg (-1)) ∧
    delete_cell [⟨"code".toList, "a".toList, []⟩,
        ⟨"code".toList, "b".toList, []⟩] (-1) =
      .ok ([⟨"code".toList, "a".toList, []⟩], cell_deleted_msg (-1)) := by
  refine ⟨by decide, ?_, ?_⟩
  · exact ((negative_index_update_delete
      [⟨"code".toList, "a".toList, []⟩, ⟨"code".toList, "b".toList, []⟩]
      (-1) ("c".toList) (by decide) (by decide) (by decide)).1).trans (by rfl)
  · exact ((negative_index_update_delete
      [⟨"code".toList, "a".toList, []⟩, ⟨"code".toList, "b".toList, []⟩]
      (-1) ("c".toList) (by decide) (by decide) (by decide)).2.1).trans (by rfl)

/-! ### Remote service client (`JupyterServerClient`, src/notebook_manager.py) -/

/-- The transport outcome one HTTP call observes: either the client library
raises (`aiohttp.ClientError`: connection refused, timeout, malformed
response), or a response with a status code and a body arrives. -/
inductive HttpOutcome (β : Type) where
  | failure (e : PyStr)
  | response (status : Nat) (body : β)

/-- Result of a client method, with one constructor per exception kind the
repository can let escape: `ok`, the three wrapped exception classes from
src/exceptions.py, and `clientExc` for a raw client-library exception that
the method body does not catch. -/
inductive PyResult (α : Type) where
  | ok (a : α)
  | serverConnectionError (msg : PyStr)
  | notebookError (msg : PyStr)
  | kernelError (msg : PyStr)
  | clientExc (e : PyStr)

/-- Whether a result is a raised `ServerConnectionError`. -/
def PyResult.isServerConnectionError : PyResult α → Bool
  | .serverConnectionError _ => true
  | _ => false

/-- `JupyterServerClient._make_request` (src/notebook_manager.py:30-41): the
only place in the client that wraps `aiohttp.ClientError` into
`ServerConnectionError`.  No other client method calls it. -/
def make_request (o : HttpOutcome β) : PyResult (Nat × β) :=
  match o with
  | .failure e =>
    .serverConnectionError ("Failed to connect to Jupyter server: ".toList ++ e)
  | .response s b => .ok (s, b)

/-- `JupyterServerClient.get_kernelspecs` (src/notebook_manager.py:43-51):
opens its own client session with no try/except, so a transport failure
propagates raw; a non-200 status raises `KernelError`. -/
def get_kernelspecs (o : HttpOutcome β) : PyResult β :=
  match o with
  | .failure e => .clientExc e
  | .response s b =>
    if s = 200 then .ok b
    else .kernelError ("Failed to get kernelspecs: ".toList ++ natChars s)

/-- `JupyterServerClient.get_notebook_content` (src/notebook_manager.py:53-63):
no try/except; 200 returns the body, 404 raises the distinguished "not
found" `NotebookError`, any other status raises a generic `NotebookError`. -/
def get_notebook_content (path : PyStr) (o : HttpOutcome β) : PyResult β :=
  match o with
  | .failure e => .clientExc e
  | .response s b =>
    if s = 200 then .ok b
    else if s = 404 then .notebookError ("Notebook not found: ".toList ++ path)
    else .notebookError ("Failed to access notebook: ".toList ++ natChars s)

/-- `JupyterServerClient.save_notebook_content` (src/notebook_manager.py:65-78):
no try/except; a status outside {200, 201} raises `NotebookError`. -/
def save_notebook_content (o : HttpOutcome β) : PyResult Unit :=
  match o with
  | .failure e => .clientExc e
  | .response s _ =>
    if s = 200 ∨ s = 201 then .ok ()
    else .notebookError ("Failed to save notebook: ".toList ++ natChars s)

/-- `JupyterServerClient.get_sessions` (src/notebook_manager.py:80-88): no
try/except; a non-200 status raises `KernelError`. -/
def get_sessions (o : HttpOutcome β) : PyResult β :=
  match o with
  | .failure e => .clientExc e
  | .response s b =>
    if s = 200 then .ok b
    else .kernelError ("Failed to get sessions: ".toList ++ natChars s)

/-- `JupyterServerClient.create_session` (src/notebook_manager.py:90-105): no
try/except; a status outside {200, 201} raises `KernelError`. -/
def create_session (o : HttpOutcome β) : PyResult β :=
  match o with
  | .failure e => .clientExc e
  | .response s b =>
    if s = 200 ∨ s = 201 then .ok b
    else .kernelError ("Failed to create session: ".toList ++ natChars s)

/-- C6 counterexample: a transport failure on the kernelspec call surfaces as
the raw client-library exception, not as a `ServerConnectionError`. -/
theorem get_kernelspecs_transport_failure_raw :
    (get_kernelspecs
      (HttpOutcome.failure (β := Unit)
        ("connection refused".toList))).isServerConnectionError = false ∧
    get_kernelspecs (HttpOutcome.failure (β := Unit) ("connection refused".toList)) =
      PyResult.clientExc ("connection refused".toList) :=
  ⟨rfl, rfl⟩

/-- C6 (amended): all five client calls let a transport failure propagate as
the raw client-library exception; the `ServerConnectionError` wrapping exists
only in the unused `_make_request` helper.  Non-2xx statuses map to
`KernelError` / `NotebookError` as specified. -/
theorem client_transport_failures_propagate_raw (β : Type) (e path : PyStr)
    (s : Nat) (b : β) :
    get_kernelspecs (HttpOutcome.failure (β := β) e) = .clientExc e ∧
    get_notebook_content path (HttpOutcome.failure (β := β) e) = .clientExc e ∧
    save_notebook_content (HttpOutcome.failure (β := β) e) = .clientExc e ∧
    get_sessions (HttpOutcome.failure (β := β) e) = .clientExc e ∧
    create_session (HttpOutcome.failure (β := β) e) = .clientExc e ∧
    make_request (HttpOutcome.failure (β := β) e) =
      .serverConnectionError ("Failed to connect to Jupyter server: ".toList ++ e) ∧
    (s ≠ 200 → get_kernelspecs (HttpOutcome.response s b) =
      .kernelError ("Failed to get kernelspecs: ".toList ++ natChars s)) ∧
    (s ≠ 200 → get_sessions (HttpOutcome.response s b) =
      .kernelError ("Failed to get sessions: ".toList ++ natChars s)) ∧
    (s ≠ 200 → s ≠ 201 → create_session (HttpOutcome.response s b) =
      .kernelError ("Failed to create session: ".toList ++ natChars s)) ∧
    (s ≠ 200 → s ≠ 404 → get_notebook_content path (HttpOutcome.response s b) =
      .notebookError ("Failed to access notebook: ".toList ++ natChars s)) := by
  refine ⟨rfl, rfl, rfl, rfl, rfl, rfl, ?_, ?_, ?_, ?_⟩
  · intro hs
    simp only [get_kernelspecs]
    rw [if_neg hs]
  · intro hs
    simp only [get_sessions]
    rw [if_neg hs]
  · intro hs hs'
    simp only [create_session]
    rw [if_neg (by tauto)]
  · intro hs hs'
    simp only [get_notebook_content]
    rw [if_neg hs, if_neg hs']

/-- Witness: raw propagation of a concrete transport failure on every call,
and the `KernelError` mapping at status 500. -/
theorem client_transport_failures_propagate_raw_witness :
    get_kernelspecs (HttpOutcome.failure (β := Unit) ("timeout".toList)) =
      .clientExc ("timeout".toList) ∧
    get_notebook_content ("nb.ipynb".toList)
      (HttpOutcome.failure (β := Unit) ("timeout".toList)) =
      .clientExc ("timeout".toList) ∧
    (500 ≠ 200 ∧
      get_kernelspecs (HttpOutcome.response 500 ()) =
        .kernelError ("Failed to get kernelspecs: ".toList ++ natChars 500)) :=
  ⟨(client_transport_failures_propagate_raw Unit ("timeout".toList)
      ("nb.ipynb".toList) 500 ()).1,
   (client_transport_failures_propagate_raw Unit ("timeout".toList)
      ("nb.ipynb".toList) 500 ()).2.1,
   by decide,
   (client_transport_failures_propagate_raw Unit ("timeout".toList)
      ("nb.ipynb".toList) 500 ()).2.2.2.2.2.2.1 (by decide)⟩

/-! ### Notebook cleaning (`clean_notebook_for_nbformat`, src/utils.py:13-35) -/

/-- A JSON value, the shape of the raw notebook content the remote service
returns. -/
inductive JVal where
  | str (s : PyStr)
  | num (n : Int)
  | boolean (b : Bool)
  | null
  | arr (elems : List JVal)
  | obj (fields : List (PyStr × JVal))

/-- Python dict lookup `d.get(k)` over a JSON object's fields. -/
def jdict_get (fields : List (PyStr × JVal)) (k : PyStr) : Option JVal :=
  (fields.find? (fun kv => kv.1 == k)).map (fun kv => kv.2)

/-- The loop body over one output dict: `if "transient" in output:
del output["transient"]`.  Non-dict values are left alone (the guarded
theorems below only consider dict outputs, which is all the Python code is
ever handed). -/
def clean_output : JVal → JVal
  | .obj fields => .obj (fields.filter (fun kv => !(kv.1 == "transient".toList)))
  | v => v

/-- The inner loop: mutate every element of `cell["outputs"]` in place. -/
def clean_outputs_list : JVal → JVal
  | .arr outs => .arr (outs.map clean_output)
  | v => v

/-- The per-cell step: `if "outputs" not in cell: continue`, else rewrite the
`outputs` entry in place. -/
def clean_cell : JVal → JVal
  | .obj fields =>
    match jdict_get fields ("outputs".toList) with
    | some _ => .obj (fields.map (fun kv =>
        if kv.1 == "outputs".toList then (kv.1, clean_outputs_list kv.2) else kv))
    | none => .obj fields
  | v => v

/-- The outer loop: mutate every element of `cleaned["cells"]` in place. -/
def clean_cells_list : JVal → JVal
  | .arr cells => .arr (cells.map clean_cell)
  | v => v

/-- `clean_notebook_for_nbformat` (src/utils.py:13-35): deep-copy (pure here),
return unchanged when there is no `cells` key, otherwise rewrite the `cells`
entry in place. -/
def clean_notebook_for_nbformat (nb : List (PyStr × JVal)) : List (PyStr × JVal) :=
  match jdict_get nb ("cells".toList) with
  | none => nb
  | some _ => nb.map (fun kv =>
      if kv.1 == "cells".toList then (kv.1, clean_cells_list kv.2) else kv)

/-- Helper: one step of dict lookup. -/
theorem jdict_get_cons (kv : PyStr × JVal) (l : List (PyStr × JVal)) (k : PyStr) :
    jdict_get (kv :: l) k = if kv.1 == k then some kv.2 else jdict_get l k := by
  cases h : kv.1 == k with
  | true => simp [jdict_get, List.find?_cons, h]
  | false => simp [jdict_get, List.find?_cons, h]

/-- Helper: looking up `k` after rewriting the values stored under `k`. -/
theorem jdict_get_map_update (nb : List (PyStr × JVal)) (k : PyStr)
    (f : JVal → JVal) :
    jdict_get (nb.map (fun kv => if kv.1 == k then (kv.1, f kv.2) else kv)) k =
      (jdict_get nb k).map f := by
  induction nb with
  | nil => rfl
  | cons kv nb ih =>
    rw [List.map_cons]
    cases h : kv.1 == k with
    | true =>
      have heq := eq_of_beq h
      simp [jdict_get_cons, heq]
    | false =>
      have hne := ne_of_beq_false h
      simpa [jdict_get_cons, hne] using ih

/-- Helper: looking up a different key is unaffected by the rewrite. -/
theorem jdict_get_map_update_ne (nb : List (PyStr × JVal)) (k k' : PyStr)
    (f : JVal → JVal) (h : k' ≠ k) :
    jdict_get (nb.map (fun kv => if kv.1 == k then (kv.1, f kv.2) else kv)) k' =
      jdict_get nb k' := by
  induction nb with
  | nil => rfl
  | cons kv nb ih =>
    rw [List.map_cons]
    cases hk : kv.1 == k with
    | true =>
      have heq := eq_of_beq hk
      have hkk : ¬ (k = k') := fun hc => h hc.symm
      simpa [jdict_get_cons, heq, hkk] using ih
    | false =>
      have hne := ne_of_beq_false hk
      by_cases hk' : kv.1 = k'
      · simp [jdict_get_cons, hne, hk']
      · simpa [jdict_get_cons, hne, hk'] using ih

/-- Helper: key lists are preserved by the rewrite. -/
theorem keys_map_update (nb : List (PyStr × JVal)) (k : PyStr) (f : JVal → JVal) :
    (nb.map (fun kv => if kv.1 == k then (kv.1, f kv.2) else kv)).map
        (fun kv => kv.1) =
      nb.map (fun kv => kv.1) := by
  induction nb with
  | nil => rfl
  | cons kv nb ih =>
    rw [List.map_cons, List.map_cons, List.map_cons]
    cases h : kv.1 == k with
    | true => exact congrArg (fun l => kv.1 :: l) ih
    | false => exact congrArg (fun l => kv.1 :: l) ih

/-- Helper: after filtering the `transient` entries out, `transient` is
absent. -/
theorem jdict_get_filter_transient (of : List (PyStr × JVal)) :
    jdict_get (of.filter (fun kv => !(kv.1 == "transient".toList)))
      ("transient".toList) = none := by
  induction of with
  | nil => rfl
  | cons kv of ih =>
    rw [List.filter_cons]
    cases h : kv.1 == "transient".toList with
    | true =>
      rw [if_neg (show ¬ ((!true) = true) from by decide)]
      exact ih
    | false =>
      have hcond : ¬ ((kv.1 == "transient".toList) = true) := by
        rw [h]
        exact Bool.false_ne_true
      rw [if_pos (show (!false) = true from rfl), jdict_get_cons, if_neg hcond]
      exact ih

/-- Helper: filtering the `transient` entries out leaves other keys
untouched. -/
theorem jdict_get_filter_transient_ne (of : List (PyStr × JVal)) (k : PyStr)
    (h : k ≠ "transient".toList) :
    jdict_get (of.filter (fun kv => !(kv.1 == "transient".toList))) k =
      jdict_get of k := by
  induction of with
  | nil => rfl
  | cons kv of ih =>
    rw [List.filter_cons]
    cases ht : kv.1 == "transient".toList with
    | true =>
      rw [if_neg (show ¬ ((!true) = true) from by decide)]
      have hk : ¬ ((kv.1 == k) = true) :=
        fun hc => h ((eq_of_beq hc).symm.trans (eq_of_beq ht))
      rw [ih, jdict_get_cons, if_neg hk]
    | false =>
      rw [if_pos (show (!false) = true from rfl), jdict_get_cons,
        jdict_get_cons, ih]

/-- C8: cleaning a notebook whose `cells` entry is an array rewrites exactly
that entry, cleaning every cell's `outputs` array element-wise; a cleaned
output dict has no `transient` key and keeps every other key with its value;
all other notebook keys, the cell count, and all non-`outputs` cell fields
are preserved. -/
theorem clean_notebook_strips_transient (nb : List (PyStr × JVal))
    (cells : List JVal) (hcells : jdict_get nb ("cells".toList) = some (.arr cells)) :
    ((clean_notebook_for_nbformat nb).map (fun kv => kv.1) =
      nb.map (fun kv => kv.1)) ∧
    (∀ kv ∈ nb, kv.1 ≠ "cells".toList → kv ∈ clean_notebook_for_nbformat nb) ∧
    (∀ k, k ≠ "cells".toList →
      jdict_get (clean_notebook_for_nbformat nb) k = jdict_get nb k) ∧
    (jdict_get (clean_notebook_for_nbformat nb) ("cells".toList) =
      some (.arr (cells.map clean_cell))) ∧
    ((cells.map clean_cell).length = cells.length) ∧
    (∀ cf : List (PyStr × JVal), ∀ outs : List JVal,
      jdict_get cf ("outputs".toList) = some (.arr outs) →
      jdict_get (match clean_cell (.obj cf) with
        | .obj cf' => cf'
        | _ => []) ("outputs".toList) = some (.arr (outs.map clean_output)) ∧
      (∀ k, k ≠ "outputs".toList →
        jdict_get (match clean_cell (.obj cf) with
          | .obj cf' => cf'
          | _ => []) k = jdict_get cf k)) ∧
    (∀ of : List (PyStr × JVal),
      clean_output (.obj of) =
        .obj (of.filter (fun kv => !(kv.1 == "transient".toList))) ∧
      jdict_get (of.filter (fun kv => !(kv.1 == "transient".toList)))
        ("transient".toList) = none ∧
      (∀ k, k ≠ "transient".toList →
        jdict_get (of.filter (fun kv => !(kv.1 == "transient".toList))) k =
          jdict_get of k)) := by
  have hclean : clean_notebook_for_nbformat nb =
      nb.map (fun kv =>
        if kv.1 == "cells".toList then (kv.1, clean_cells_list kv.2) else kv) := by
    unfold clean_notebook_for_nbformat
    rw [hcells]
  refine ⟨?_, ?_, ?_, ?_, by rw [List.length_map], ?_, ?_⟩
  · rw [hclean]
    exact keys_map_update nb _ _
  · intro kv hkv hne
    rw [hclean]
    refine List.mem_map.mpr ⟨kv, hkv, ?_⟩
    have hb : ¬ (kv.1 == "cells".toList) = true := fun hc => hne (eq_of_beq hc)
    rw [if_neg hb]
  · intro k hk
    rw [hclean]
    exact jdict_get_map_update_ne nb _ k _ hk
  · rw [hclean, jdict_get_map_update, hcells]
    rfl
  · intro cf outs houts
    have hcc : clean_cell (.obj cf) =
        .obj (cf.map (fun kv =>
          if kv.1 == "outputs".toList then (kv.1, clean_outputs_list kv.2)
          else kv)) := by
      simp only [clean_cell]
      rw [houts]
    refine ⟨?_, ?_⟩
    · rw [hcc]
      show jdict_get (cf.map _) ("outputs".toList) = _
      rw [jdict_get_map_update, houts]
      rfl
    · intro k hk
      rw [hcc]
      exact jdict_get_map_update_ne cf _ k _ hk
  · intro of
    exact ⟨rfl, jdict_get_filter_transient of,
      fun k hk => jdict_get_filter_transient_ne of k hk⟩

/-- Witness: a notebook with one code cell whose single output carries a
`transient` key comes out with the key removed and everything else intact. -/
theorem clean_notebook_strips_transient_witness :
    jdict_get
      [("cells".toList,
        JVal.arr [JVal.obj [("outputs".toList,
          JVal.arr [JVal.obj [("transient".toList, JVal.null),
            ("output_type".toList, JVal.str ("stream".toList))]])]])]
      ("cells".toList) =
      some (JVal.arr [JVal.obj [("outputs".toList,
        JVal.arr [JVal.obj [("transient".toList, JVal.null),
          ("output_type".toList, JVal.str ("stream".toList))]])]]) ∧
    jdict_get (clean_notebook_for_nbformat
      [("cells".toList,
        JVal.arr [JVal.obj [("outputs".toList,
          JVal.arr [JVal.obj [("transient".toList, JVal.null),
            ("output_type".toList, JVal.str ("stream".toList))]])]])])
      ("cells".toList) =
      some (JVal.arr ([JVal.obj [("outputs".toList,
        JVal.arr [JVal.obj [("transient".toList, JVal.null),
          ("output_type".toList, JVal.str ("stream".toList))]])]].map clean_cell)) := by
  refine ⟨rfl, ?_⟩
  exact (clean_notebook_strips_transient
    [("cells".toList,
      JVal.arr [JVal.obj [("outputs".toList,
        JVal.arr [JVal.obj [("transient".toList, JVal.null),
          ("output_type".toList, JVal.str ("stream".toList))]])]])]
    [JVal.obj [("outputs".toList,
      JVal.arr [JVal.obj [("transient".toList, JVal.null),
        ("output_type".toList, JVal.str ("stream".toList))]])]]
    rfl).2.2.2.1

/-! ### Notebook load-or-create (`NotebookManager._load_or_create_notebook`,
src/notebook_manager.py:288-301) -/

/-- Every character `str` produces for a natural number is a decimal
digit. -/
theorem digitChar_mem_digits (m : Nat) (h : m < 10) :
    Nat.digitChar m ∈ "0123456789".toList := by
  interval_cases m <;> decide

/-- Every character of `natChars n` is a decimal digit. -/
theorem natChars_mem_digits (n : Nat) :
    ∀ c ∈ natChars n, c ∈ "0123456789".toList := by
  induction n using Nat.strong_induction_on with
  | _ n ih =>
    intro c hc
    unfold natChars at hc
    split at hc
    · next h =>
      rw [List.mem_singleton] at hc
      subst hc
      exact digitChar_mem_digits n h
    · next h =>
      rw [List.mem_append] at hc
      rcases hc with hc | hc
      · exact ih (n / 10) (Nat.div_lt_self (by omega) (by omega)) c hc
      · rw [List.mem_singleton] at hc
        subst hc
        exact digitChar_mem_digits (n % 10) (Nat.mod_lt _ (by omega))

/-- A nonempty pattern occurring inside `a ++ b` either occurs inside `a` or
has a character inside `b`. -/
theorem infix_append_cases (pat a b : List Char) (hne : pat ≠ [])
    (h : pat <:+: a ++ b) : pat <:+: a ∨ ∃ c ∈ pat, c ∈ b := by
  induction a with
  | nil =>
    right
    rcases pat with _ | ⟨c, pat'⟩
    · exact absurd rfl hne
    · exact ⟨c, List.mem_cons_self c pat',
        h.sublist.subset (List.mem_cons_self c pat')⟩
  | cons x a' ih =>
    rw [List.cons_append, List.infix_cons_iff] at h
    rcases h with hpre | hinf
    · by_cases hl : pat.length ≤ (x :: a').length
      · left
        have hpre' : pat <+: (x :: a') ++ b := by
          rw [List.cons_append]
          exact hpre
        exact (List.prefix_of_prefix_length_le hpre'
          (List.prefix_append (x :: a') b) hl).isInfix
      · right
        push_neg at hl
        have hpre' : pat <+: (x :: a') ++ b := by
          rw [List.cons_append]
          exact hpre
        have hap : (x :: a') <+: pat :=
          List.prefix_of_prefix_length_le (List.prefix_append (x :: a') b)
            hpre' (by omega)
        obtain ⟨r, hr⟩ := hap
        have hrb : r <+: b := by
          have hx : (x :: a') ++ r <+: (x :: a') ++ b := by
            rw [hr]
            exact hpre'
          exact ((List.prefix_append_right_inj (x :: a')).mp hx)
        rcases r with _ | ⟨c, r'⟩
        · exfalso
          rw [List.append_nil] at hr
          rw [← hr] at hl
          omega
        · refine ⟨c, ?_, ?_⟩
          · rw [← hr]
            exact List.mem_append.mpr (Or.inr (List.mem_cons_self c r'))
          · exact hrb.sublist.subset (List.mem_cons_self c r')
    · rcases ih hinf with h | h
      · exact Or.inl (h.trans (List.infix_cons (List.infix_refl a')))
      · exact Or.inr h

/-- The 404 message `"Notebook not found: " + path` always contains the
substring `"not found"` that the recovery branch looks for. -/
theorem not_found_in_not_found_msg (path : PyStr) :
    "not found".toList <:+: ("Notebook not found: ".toList ++ path) := by
  have h1 : "not found".toList <:+: "Notebook not found: ".toList := by decide
  exact h1.trans (List.prefix_append _ path).isInfix

/-- The non-404 message `"Failed to access notebook: " + str(status)` never
contains the substring `"not found"`, whatever the status is. -/
theorem not_found_not_in_access_msg (s : Nat) :
    ¬ ("not found".toList <:+: ("Failed to access notebook: ".toList ++ natChars s)) := by
  intro h
  rcases infix_append_cases ("not found".toList)
    ("Failed to access notebook: ".toList) (natChars s) (by decide) h with
    h | ⟨c, hc, hcb⟩
  · exact absurd h (by decide)
  · have hd := natChars_mem_digits s c hcb
    have hno : ∀ x ∈ "0123456789".toList, x ∉ "not found".toList := by decide
    exact hno c hd hc

/-- `nbformat.v4.new_notebook()`: the empty v4 notebook structure. -/
def new_notebook : List (PyStr × JVal) :=
  [("cells".toList, .arr []),
   ("metadata".toList, .obj []),
   ("nbformat".toList, .num 4),
   ("nbformat_minor".toList, .num 5)]

/-- `data.get("content", {})` followed by the cleaning step
(src/notebook_manager.py:292-294); `nbformat.from_dict` accepts the cleaned
dict into the canonical structure. -/
def notebook_from_response (data : List (PyStr × JVal)) : List (PyStr × JVal) :=
  match jdict_get data ("content".toList) with
  | some (.obj content) => clean_notebook_for_nbformat content
  | _ => clean_notebook_for_nbformat []

/-- `NotebookManager._load_or_create_notebook`
(src/notebook_manager.py:288-301): fetch the notebook; on a `NotebookError`
whose text contains `"not found"`, build a fresh empty notebook and
immediately persist it (the boolean records the save); re-raise every other
`NotebookError` unchanged; any other exception propagates untouched. -/
def load_or_create_notebook (path : PyStr)
    (o : HttpOutcome (List (PyStr × JVal))) :
    PyResult (List (PyStr × JVal) × Bool) :=
  match get_notebook_content path o with
  | .ok data => .ok (notebook_from_response data, false)
  | .notebookError msg =>
    if "not found".toList <:+: msg then .ok (new_notebook, true)
    else .notebookError msg
  | .serverConnectionError m => .serverConnectionError m
  | .kernelError m => .kernelError m
  | .clientExc e => .clientExc e

/-- C7: during initialization, a 404 ("not found") on the notebook fetch is
the only locally recovered condition — it yields a fresh empty notebook that
is immediately persisted; a fetch failing with any other status re-raises the
same `NotebookError` unchanged; a transport failure propagates untouched; a
successful fetch recovers nothing. -/
theorem load_or_create_recovers_only_not_found (path e : PyStr) (s : Nat)
    (b : List (PyStr × JVal)) (hs : s ≠ 200) (hs' : s ≠ 404) :
    load_or_create_notebook path (.response 404 b) = .ok (new_notebook, true) ∧
    load_or_create_notebook path (.response s b) =
      .notebookError ("Failed to access notebook: ".toList ++ natChars s) ∧
    get_notebook_content path (.response s b) =
      (.notebookError ("Failed to access notebook: ".toList ++ natChars s) :
        PyResult (List (PyStr × JVal))) ∧
    load_or_create_notebook path (.failure e) = .clientExc e ∧
    load_or_create_notebook path (.response 200 b) =
      .ok (notebook_from_response b, false) := by
  have hget : get_notebook_content path
      (.response s b : HttpOutcome (List (PyStr × JVal))) =
      .notebookError ("Failed to access notebook: ".toList ++ natChars s) := by
    simp only [get_notebook_content]
    rw [if_neg hs, if_neg hs']
  refine ⟨?_, ?_, hget, rfl, ?_⟩
  · have h404 : get_notebook_content path
        (.response 404 b : HttpOutcome (List (PyStr × JVal))) =
        .notebookError ("Notebook not found: ".toList ++ path) := by
      simp only [get_notebook_content]
      rw [if_neg (by decide), if_pos trivial]
    simp only [load_or_create_notebook, h404]
    rw [if_pos (not_found_in_not_found_msg path)]
  · simp only [load_or_create_notebook, hget]
    rw [if_neg (not_found_not_in_access_msg s)]
  · simp only [load_or_create_notebook, get_notebook_content]
    rw [if_pos trivial]

/-- Witness: status 500 re-raises the same error; status 404 creates and
persists the empty notebook. -/
theorem load_or_create_recovers_only_not_found_witness :
    ((500 : Nat) ≠ 200 ∧ (500 : Nat) ≠ 404) ∧
    load_or_create_notebook ("nb.ipynb".toList) (.response 404 []) =
      .ok (new_notebook, true) ∧
    load_or_create_notebook ("nb.ipynb".toList) (.response 500 []) =
      .notebookError ("Failed to access notebook: ".toList ++ natChars 500) :=
  ⟨⟨by decide, by decide⟩,
   (load_or_create_recovers_only_not_found ("nb.ipynb".toList) [] 500 []
     (by decide) (by decide)).1,
   (load_or_create_recovers_only_not_found ("nb.ipynb".toList) [] 500 []
     (by decide) (by decide)).2.1⟩

end JupyterMCP
